import Mathlib

/-!
Verification of the go-sse library (package sse): a shallow embedding of
`src/sse.go` and `src/unnamed/part_000` (an earlier revision of the same
package), with theorems settling the specification's claims about message
serialization, connection send semantics, the upgrade procedure and the
writer loop state machine.

Byte sequences (Go `string` and `[]byte` values) are modelled as Lean
`String`s: the writer loop only concatenates them into the response body,
so only their sequence structure matters.
-/

namespace SSE

/-- `Message` from src/sse.go: id, event and data attributes of an event
message.  `data` models the Go `[]byte` payload. -/
structure Message where
  id : String
  event : String
  data : String
deriving Repr, DecidableEq

instance : Inhabited Message := ⟨⟨"", "", ""⟩⟩

/-- The sequence of `fmt.Fprintf` writes the writer loop in src/sse.go
(lines 150-161) performs for one received message: an id line when
`len(message.id) > 0`, an event line when `len(message.event) > 0`, and the
data line followed by the blank-line terminator (one Fprintf with format
string "data: %s\n\n"). -/
def messageWrites (m : Message) : List String :=
  (if 0 < m.id.length then ["id: " ++ m.id ++ "\n"] else [])
    ++ (if 0 < m.event.length then ["event: " ++ m.event ++ "\n"] else [])
    ++ ["data: " ++ m.data ++ "\n\n"]

/-- The byte sequence the writer loop in src/sse.go appends to the
transport for one received message: the concatenation of its Fprintf
writes. -/
def serializeMessage (m : Message) : String :=
  (if 0 < m.id.length then "id: " ++ m.id ++ "\n" else "")
    ++ (if 0 < m.event.length then "event: " ++ m.event ++ "\n" else "")
    ++ ("data: " ++ m.data ++ "\n\n")

/-- The byte sequence the writer loop of the earlier revision
src/unnamed/part_000 (lines 108-116) appends to the transport for one
received message. -/
def serializeMessageV0 (m : Message) : String :=
  (if 0 < m.id.length then "id: " ++ m.id ++ "\n" else "")
    ++ (if 0 < m.event.length then "event: " ++ m.event ++ "\n" else "")
    ++ ("data: " ++ m.data ++ "\n\n")

/-- `Connection` from src/sse.go.  The message channel is modelled as the
queue of messages that have been handed to the writer loop. -/
structure Connection where
  messages : List Message
  isOpen : Bool
deriving Repr, DecidableEq

/-- `Connection.send` from src/sse.go (lines 56-62): fails with the
connection-closed error when `isOpen` is false, otherwise hands the
message value to the writer loop via the message channel and returns nil
(modelled as `none`). -/
def Connection.send (c : Connection) (m : Message) : Connection × Option String :=
  if !c.isOpen then (c, some "connection is closed")
  else ({ c with messages := c.messages ++ [m] }, none)

/-- `MessageBuilder` from src/sse.go: wraps the in-progress `Message`.
The Go builder also holds a pointer to its `Connection`; the connection is
passed explicitly to the `Send*` operations here. -/
structure MessageBuilder where
  message : Message
deriving Repr, DecidableEq

/-- `MessageBuilder.WithId` from src/sse.go: sets the id attribute and
returns the builder. -/
def MessageBuilder.WithId (b : MessageBuilder) (id : String) : MessageBuilder :=
  { b with message := { b.message with id := id } }

/-- `MessageBuilder.WithEvent` from src/sse.go: sets the event attribute
and returns the builder. -/
def MessageBuilder.WithEvent (b : MessageBuilder) (event : String) : MessageBuilder :=
  { b with message := { b.message with event := event } }

/-- `MessageBuilder.SendBytes` from src/sse.go: sets the data attribute
and submits the message through `Connection.send`.  Returns the updated
builder, the updated connection and the error result. -/
def MessageBuilder.SendBytes (b : MessageBuilder) (c : Connection) (d : String) :
    MessageBuilder × Connection × Option String :=
  let b2 := { b with message := { b.message with data := d } }
  let r := Connection.send c b2.message
  (b2, r.1, r.2)

/-- `MessageBuilder.SendJson` from src/sse.go (lines 95-102).  The call to
`json.Marshal(data)` is modelled by its result `marshalled`: `.error e`
when the value is not serializable, `.ok d` with the JSON byte sequence
otherwise.  On a marshal error the error is returned at once: the
message's data field is not set and `Connection.send` is not reached. -/
def MessageBuilder.SendJson (b : MessageBuilder) (c : Connection)
    (marshalled : Except String String) : MessageBuilder × Connection × Option String :=
  match marshalled with
  | .error e => (b, c, some e)
  | .ok d =>
    let b2 := { b with message := { b.message with data := d } }
    let r := Connection.send c b2.message
    (b2, r.1, r.2)

/-- The `http.ResponseWriter` collaborator of `Upgrade`: `supportsFlush`
records whether the writer implements `http.Flusher`; `headers` is the
response header map, `flushes` counts `Flusher.Flush()` calls and `body`
is the response body written so far. -/
structure ResponseWriter where
  supportsFlush : Bool
  headers : List (String × String)
  flushes : Nat
  body : String
deriving Repr, DecidableEq

/-- Go's `http.Header.Set`: replaces any existing values for the key with
the single given value. -/
def setHeader (hs : List (String × String)) (k v : String) : List (String × String) :=
  hs.filter (fun p => p.1 ≠ k) ++ [(k, v)]

/-- `Upgrade` from src/sse.go (lines 111-134, up to spawning the writer
loop): when the writer does not support flushing it returns a nil
connection and the streaming-unsupported error, leaving the writer
untouched; otherwise it constructs the connection with fresh channels,
sets the three SSE headers, performs the initial flush and returns the
connection. -/
def Upgrade (w : ResponseWriter) : ResponseWriter × Option Connection × Option String :=
  if !w.supportsFlush then (w, none, some "streaming not supported")
  else
    let c : Connection := { messages := [], isOpen := true }
    let w2 : ResponseWriter :=
      { w with
          headers :=
            setHeader
              (setHeader (setHeader w.headers "Content-Type" "text/event-stream")
                "Cache-Control" "no-cache")
              "Connection" "keep-alive",
          flushes := w.flushes + 1 }
    (w2, some c, none)

/-- The events the writer loop's `select` in src/sse.go (lines 146-168)
can observe: a message arriving on the message channel, a value on the
shutdown channel, or the request context's done signal. -/
inductive LoopEvent where
  | message (m : Message)
  | shutdown
  | ctxDone
deriving Repr, DecidableEq

/-- The writer loop's state: `running` is whether the goroutine is still
in its `for` loop (`RUNNING` vs `STOPPED`), `isOpen` the connection flag
it owns, `output` the bytes written to the transport and `flushes` the
number of flush calls. -/
structure LoopState where
  running : Bool
  isOpen : Bool
  output : String
  flushes : Nat
deriving Repr, DecidableEq

/-- One iteration of the writer loop in src/sse.go (lines 146-168): a
message is serialized, written and flushed; a shutdown signal falls
through the empty `case` arm; the context's done signal sets
`isOpen = false` and returns from the goroutine.  A stopped loop observes
nothing and writes nothing. -/
def writerStep (s : LoopState) (e : LoopEvent) : LoopState :=
  if s.running then
    match e with
    | .message m =>
      { s with output := s.output ++ serializeMessage m, flushes := s.flushes + 1 }
    | .shutdown => s
    | .ctxDone => { s with isOpen := false, running := false }
  else s

/-- The writer loop run over a sequence of observed events. -/
def writerRun (s : LoopState) (evs : List LoopEvent) : LoopState :=
  evs.foldl writerStep s

/-- A heap of `Message` cells, used to model the Go pointer
`messageBuilder.message`: the builder holds an index `p` into the heap and
`connection.messages <- *message` dereferences it at handoff time. -/
structure Heap where
  cells : List Message
deriving Repr, DecidableEq

/-- Reading the Message a pointer refers to. -/
def Heap.read (h : Heap) (p : Nat) : Message :=
  h.cells.getD p default

/-- Writing through a pointer (a `With*` or `Send*` mutation of the
builder's backing struct). -/
def Heap.write (h : Heap) (p : Nat) (m : Message) : Heap :=
  ⟨h.cells.set p m⟩

/-- `connection.messages <- *message` from src/sse.go line 60, with the
pointer dereference explicit: the value currently stored in the builder's
Message cell is copied onto the channel. -/
def Connection.sendPtr (c : Connection) (h : Heap) (p : Nat) : Connection × Option String :=
  Connection.send c (h.read p)

/-- `WithId` acting through the builder's Message pointer. -/
def withIdPtr (h : Heap) (p : Nat) (id : String) : Heap :=
  h.write p { h.read p with id := id }

/-! Helper lemmas -/

/-- Two strings whose first characters differ are not in the
initial-segment relation on their character lists. -/
lemma head_ne_not_initial {p w : String} {c d : Char} (hp : p.data.head? = some c)
    (hw : w.data.head? = some d) (hcd : c ≠ d) : ¬ (p.data <+: w.data) := by
  rintro ⟨t, ht⟩
  rw [← ht, List.head?_append_of_ne_nil] at hw
  · exact hcd (Option.some.inj (hp ▸ hw : some c = some d))
  · intro hnil
    rw [hnil] at hp
    simp at hp

/-- Two strings whose first characters differ are distinct. -/
lemma head_ne_str {s t : String} {c d : Char} (hs : s.data.head? = some c)
    (ht : t.data.head? = some d) (hcd : c ≠ d) : s ≠ t := by
  intro h
  rw [h, ht] at hs
  exact hcd (Option.some.inj hs).symm

/-- The serialized bytes of a message decompose as an arbitrary field
part, then the data payload verbatim, then the two terminating
newlines. -/
lemma serialize_data_decomp (m : Message) :
    ∃ pre : List Char, (serializeMessage m).data = pre ++ m.data.data ++ ['\n', '\n'] := by
  refine ⟨(if 0 < m.id.length then "id: " ++ m.id ++ "\n" else "").data
      ++ (if 0 < m.event.length then "event: " ++ m.event ++ "\n" else "").data
      ++ "data: ".data, ?_⟩
  simp [serializeMessage, String.data_append, List.append_assoc]

/-- A stopped writer loop is absorbing: it observes no further events. -/
lemma writerRun_stopped (s : LoopState) (h : s.running = false) :
    ∀ evs : List LoopEvent, writerRun s evs = s := by
  intro evs
  induction evs with
  | nil => rfl
  | cons e evs ih =>
    have hs : writerStep s e = s := by simp [writerStep, h]
    calc writerRun s (e :: evs) = writerRun (writerStep s e) evs := rfl
    _ = writerRun s evs := by rw [hs]
    _ = s := ih

/-! Claim theorems -/

/-- C1: for every Message with non-empty id and non-empty event, the
writer loop writes exactly the three field lines `id: <id>\n`,
`event: <event>\n`, `data: <data>\n` in that order, followed by one blank
line (a single `\n`). -/
theorem serialize_nonempty_id_event_three_lines (m : Message)
    (hid : 0 < m.id.length) (hev : 0 < m.event.length) :
    messageWrites m =
      ["id: " ++ m.id ++ "\n", "event: " ++ m.event ++ "\n", "data: " ++ m.data ++ "\n\n"] ∧
    serializeMessage m =
      ("id: " ++ m.id ++ "\n") ++ ("event: " ++ m.event ++ "\n")
        ++ ("data: " ++ m.data ++ "\n") ++ "\n" := by
  have h2 : ("\n\n" : String) = "\n" ++ "\n" := rfl
  exact ⟨by simp [messageWrites, hid, hev],
    by simp [serializeMessage, hid, hev, h2, String.append_assoc]⟩

/-- C1 witness: the theorem evaluated at a concrete message. -/
theorem serialize_nonempty_id_event_three_lines_witness :
    messageWrites ⟨"1", "ping", "hi"⟩ =
      ["id: " ++ "1" ++ "\n", "event: " ++ "ping" ++ "\n", "data: " ++ "hi" ++ "\n\n"] ∧
    serializeMessage ⟨"1", "ping", "hi"⟩ =
      ("id: " ++ "1" ++ "\n") ++ ("event: " ++ "ping" ++ "\n")
        ++ ("data: " ++ "hi" ++ "\n") ++ "\n" :=
  serialize_nonempty_id_event_three_lines ⟨"1", "ping", "hi"⟩ (by decide) (by decide)

/-- C2: when the id is empty no write of the writer loop is an `id: `
line (none starts with `id: `, and `id: \n` in particular is never
emitted), and likewise for an empty event. -/
theorem writes_omit_empty_id_event (m : Message) :
    (m.id = "" → ∀ w ∈ messageWrites m, ¬ ("id: ".data <+: w.data) ∧ w ≠ "id: " ++ "\n") ∧
    (m.event = "" →
      ∀ w ∈ messageWrites m, ¬ ("event: ".data <+: w.data) ∧ w ≠ "event: " ++ "\n") := by
  constructor
  · intro hid w hw
    simp [messageWrites, hid] at hw
    by_cases hev : 0 < m.event.length
    · simp [hev] at hw
      rcases hw with hw | hw <;> subst hw
      · exact ⟨head_ne_not_initial rfl rfl (by decide), head_ne_str rfl rfl (by decide)⟩
      · exact ⟨head_ne_not_initial rfl rfl (by decide), head_ne_str rfl rfl (by decide)⟩
    · simp [hev] at hw
      subst hw
      exact ⟨head_ne_not_initial rfl rfl (by decide), head_ne_str rfl rfl (by decide)⟩
  · intro hev w hw
    simp [messageWrites, hev] at hw
    by_cases hid : 0 < m.id.length
    · simp [hid] at hw
      rcases hw with hw | hw <;> subst hw
      · exact ⟨head_ne_not_initial rfl rfl (by decide), head_ne_str rfl rfl (by decide)⟩
      · exact ⟨head_ne_not_initial rfl rfl (by decide), head_ne_str rfl rfl (by decide)⟩
    · simp [hid] at hw
      subst hw
      exact ⟨head_ne_not_initial rfl rfl (by decide), head_ne_str rfl rfl (by decide)⟩

/-- C2 witness: with an empty id, the single data write carries no id
line. -/
theorem writes_omit_empty_id_event_witness :
    ¬ ("id: ".data <+: ("data: " ++ "hi" ++ "\n\n").data) ∧
    ("data: " ++ "hi" ++ "\n\n") ≠ "id: " ++ "\n" :=
  (writes_omit_empty_id_event ⟨"", "", "hi"⟩).1 rfl ("data: " ++ "hi" ++ "\n\n")
    (by simp [messageWrites])

/-- C3: `send` on a closed connection fails with the connection-closed
error and hands nothing to the message channel; on an open connection it
hands the message to the writer loop and returns nil. -/
theorem send_closed_fails_open_delivers (c : Connection) (m : Message) :
    Connection.send c m =
      if c.isOpen then ({ c with messages := c.messages ++ [m] }, none)
      else (c, some "connection is closed") := by
  by_cases h : c.isOpen <;> simp [Connection.send, h]

/-- C4: when `json.Marshal` fails, `SendJson` returns the encoding error,
the builder's message keeps its data field untouched and the connection —
in particular its message channel — is unaffected. -/
theorem sendJson_marshal_error_leaves_state (b : MessageBuilder) (c : Connection)
    (e : String) :
    MessageBuilder.SendJson b c (.error e) = (b, c, some e) := rfl

/-- C5: `Upgrade` on a response writer without flush support returns a
nil connection and the streaming-unsupported error, and the writer is
untouched: no headers are set and no flush happens. -/
theorem upgrade_without_flush_fails (w : ResponseWriter) (h : w.supportsFlush = false) :
    Upgrade w = (w, none, some "streaming not supported") := by
  simp [Upgrade, h]

/-- C5 witness: the theorem evaluated at a concrete writer. -/
theorem upgrade_without_flush_fails_witness :
    Upgrade ⟨false, [], 0, ""⟩ = (⟨false, [], 0, ""⟩, none, some "streaming not supported") :=
  upgrade_without_flush_fails ⟨false, [], 0, ""⟩ rfl

/-- C6: a successful `Upgrade` sets exactly the three SSE headers, in
order Content-Type, Cache-Control, Connection, performs the initial
flush, and returns an open connection with a fresh (empty) message
channel. -/
theorem upgrade_success_sets_headers_and_flushes (w : ResponseWriter)
    (hf : w.supportsFlush = true) (hh : w.headers = []) :
    ∃ c : Connection,
      Upgrade w =
        ({ w with
            headers := [("Content-Type", "text/event-stream"),
              ("Cache-Control", "no-cache"), ("Connection", "keep-alive")],
            flushes := w.flushes + 1 }, some c, none) ∧
      c.isOpen = true ∧ c.messages = [] := by
  refine ⟨{ messages := [], isOpen := true }, ?_, rfl, rfl⟩
  simp [Upgrade, hf, hh, setHeader]

/-- C6 witness: the theorem evaluated at a concrete writer. -/
theorem upgrade_success_sets_headers_and_flushes_witness :
    ∃ c : Connection,
      Upgrade ⟨true, [], 0, ""⟩ =
        (⟨true, [("Content-Type", "text/event-stream"), ("Cache-Control", "no-cache"),
          ("Connection", "keep-alive")], 1, ""⟩, some c, none) ∧
      c.isOpen = true ∧ c.messages = [] :=
  upgrade_success_sets_headers_and_flushes ⟨true, [], 0, ""⟩ rfl rfl

/-- C7: a shutdown signal is a no-op transition of a running writer loop
(it neither terminates the loop nor touches `isOpen`); the context-done
signal sets `isOpen` to false and stops the loop, after which no event
sequence produces further transport output; and context-done is the only
event that stops a running loop. -/
theorem writer_shutdown_noop_ctxDone_terminal (s : LoopState) (h : s.running = true) :
    writerStep s .shutdown = s ∧
    writerStep s .ctxDone = { s with isOpen := false, running := false } ∧
    (∀ evs : List LoopEvent,
      (writerRun { s with isOpen := false, running := false } evs).output = s.output) ∧
    (∀ e : LoopEvent, (writerStep s e).running = false → e = .ctxDone) := by
  refine ⟨by simp [writerStep, h], by simp [writerStep, h], ?_, ?_⟩
  · intro evs
    rw [writerRun_stopped _ rfl evs]
  · intro e he
    cases e with
    | message m => simp [writerStep, h] at he
    | shutdown => simp [writerStep, h] at he
    | ctxDone => rfl

/-- C7 witness: the theorem evaluated at a concrete running loop state. -/
theorem writer_shutdown_noop_ctxDone_terminal_witness :
    writerStep ⟨true, true, "", 0⟩ LoopEvent.shutdown = ⟨true, true, "", 0⟩ ∧
    writerStep ⟨true, true, "", 0⟩ LoopEvent.ctxDone = ⟨false, false, "", 0⟩ :=
  ⟨(writer_shutdown_noop_ctxDone_terminal ⟨true, true, "", 0⟩ rfl).1,
    (writer_shutdown_noop_ctxDone_terminal ⟨true, true, "", 0⟩ rfl).2.1⟩

/-- C8: the message handed to the writer loop is a value copy of the
builder's backing struct taken at handoff time: `sendPtr` delivers the
heap cell's current value, and a later mutation through the builder's
pointer changes the heap cell but not the already delivered copy. -/
theorem send_copies_message_at_handoff (c : Connection) (h : Heap) (p : Nat) (i : String)
    (hopen : c.isOpen = true) (hp : p < h.cells.length) :
    (Connection.sendPtr c h p).1.messages = c.messages ++ [h.read p] ∧
    (Connection.sendPtr c h p).2 = none ∧
    Heap.read (withIdPtr h p i) p = { h.read p with id := i } := by
  refine ⟨by simp [Connection.sendPtr, Connection.send, hopen],
    by simp [Connection.sendPtr, Connection.send, hopen], ?_⟩
  simp [Heap.read, Heap.write, withIdPtr, List.getD, List.getElem?_set_self, hp]

/-- C8 witness: the theorem evaluated at a concrete connection, heap and
pointer. -/
theorem send_copies_message_at_handoff_witness :
    (Connection.sendPtr ⟨[], true⟩ ⟨[⟨"a", "b", "c"⟩]⟩ 0).1.messages =
      [] ++ [Heap.read ⟨[⟨"a", "b", "c"⟩]⟩ 0] ∧
    (Connection.sendPtr ⟨[], true⟩ ⟨[⟨"a", "b", "c"⟩]⟩ 0).2 = none ∧
    Heap.read (withIdPtr ⟨[⟨"a", "b", "c"⟩]⟩ 0 "z") 0 =
      { Heap.read ⟨[⟨"a", "b", "c"⟩]⟩ 0 with id := "z" } :=
  send_copies_message_at_handoff ⟨[], true⟩ ⟨[⟨"a", "b", "c"⟩]⟩ 0 "z" rfl (by decide)

/-- C9: the data payload is written verbatim, with no escaping or line
splitting: a payload containing a newline appears unmodified as a
contiguous segment of the serialized bytes, so a newline sits in the body
before the terminating blank line. -/
theorem data_newline_written_verbatim (m : Message) (hnl : '\n' ∈ m.data.data) :
    m.data.data <:+: (serializeMessage m).data ∧
    '\n' ∈ (serializeMessage m).data.dropLast.dropLast := by
  obtain ⟨pre, hpre⟩ := serialize_data_decomp m
  constructor
  · exact ⟨pre, ['\n', '\n'], by rw [hpre]⟩
  · have h3 : (serializeMessage m).data.dropLast.dropLast = pre ++ m.data.data := by
      rw [hpre]
      rw [(by simp : pre ++ m.data.data ++ ['\n', '\n'] =
        ((pre ++ m.data.data ++ ['\n']) ++ ['\n']))]
      rw [List.dropLast_concat, List.dropLast_concat]
    rw [h3]
    exact List.mem_append_right pre hnl

/-- C9 witness: the theorem evaluated at a concrete multi-line payload. -/
theorem data_newline_written_verbatim_witness :
    ("a\nb" : String).data <:+: (serializeMessage ⟨"", "", "a\nb"⟩).data ∧
    '\n' ∈ (serializeMessage ⟨"", "", "a\nb"⟩).data.dropLast.dropLast :=
  data_newline_written_verbatim ⟨"", "", "a\nb"⟩ (by decide)

/-- C10: the per-message serialization of the writer loop in src/sse.go
and that of the writer loop in src/unnamed/part_000 write the same bytes
for every message. -/
theorem serialize_versions_agree : ∀ m : Message, serializeMessage m = serializeMessageV0 m :=
  fun _ => rfl

end SSE
